import Mathlib

/-!
Verification of the packaging descriptor of `google-cloud-datastore-stubs`
(`setup.py`).  The descriptor is shallowly embedded: the file system is a
finite list of (path, contents) pairs, path segments are strings, and the
build process is modelled as a pure function from a file-system state to a
trace of events and either an error or the produced artifact.

Definitions whose doc comment starts with `Modelled from the spec:` embed
operations of the external build tool (package discovery, pattern bundling,
metadata validation, installation), which are not part of the repository
source; they follow the specification's description of those operations.
All other definitions are transliterated from `setup.py`.
-/

namespace DatastoreStubs

/-- A file-system state: a finite association of paths (lists of path
segments) to file contents. Directories are implicit. -/
structure FS where
  files : List (List String × String)
deriving DecidableEq

/-- Errors that can abort the descriptor evaluation or the build. -/
inductive SetupError where
  | fileNotFound : List String → SetupError
  | invalidVersion : String → SetupError
  | buildError : List String → String → SetupError
deriving DecidableEq

/-- Observable operations of a build run, in order of occurrence. -/
inductive Event where
  | fsAccess : List String → Event
  | discoverPackages : Event
  | validateMetadata : Event
  | bundleFiles : Event
deriving DecidableEq

/-- The path of the long-description document, from
`open("../README.md")` in `setup.py`. -/
def readmePath : List String := ["..", "README.md"]

/-- Reading a file: returns its contents, or a FileNotFoundError-equivalent
when the path is absent (the semantics of Python's `open(..).read()`). -/
def FS.readFile (fs : FS) (p : List String) : Except SetupError String :=
  match fs.files.lookup p with
  | some c => Except.ok c
  | none => Except.error (SetupError.fileNotFound p)

/-- A character allowed in a Python identifier (after the first). -/
def identChar (c : Char) : Bool := c.isAlpha || c.isDigit || c == '_'

/-- Whether a path segment is a valid importable (identifier) name. -/
def isIdentSeg (s : String) : Bool :=
  match s.data with
  | [] => false
  | c :: cs => (identChar c && !c.isDigit) && cs.all identChar

/-- The init-marker file that makes a directory a package. -/
def initMarker : String := "__init__.py"

/-- Modelled from the spec: `find_packages()` (the discovery operation of
the build tool, not present in the source tree) walks the layout and
returns the importable namespace paths whose directory contains an
init-marker, with no other filtering. -/
def find_packages (fs : FS) : List (List String) :=
  (fs.files.filterMap (fun f =>
    let p := f.1.dropLast
    if f.1.getLast? == some initMarker && !p.isEmpty && p.all isIdentSeg
    then some p else none)).dedup

/-- Split a list of characters at every occurrence of `c`. -/
def splitChars (c : Char) : List Char → List (List Char)
  | [] => [[]]
  | ch :: rest =>
    match splitChars c rest with
    | [] => [[]]
    | a :: as => if ch == c then [] :: a :: as else (ch :: a) :: as

/-- Split a string at every occurrence of `c`. -/
def splitOnChar (c : Char) (s : String) : List String :=
  (splitChars c s.data).map (fun l => String.mk l)

/-- Modelled from the spec: glob matching of one pattern segment against one
path segment; `*` matches any (possibly empty) run of characters. -/
def globSeg : List Char → List Char → Bool
  | [], s => s.isEmpty
  | c :: ps, s =>
    if c == '*' then s.tails.any (fun t => globSeg ps t)
    else
      match s with
      | [] => false
      | c2 :: s2 => c == c2 && globSeg ps s2

/-- Modelled from the spec: glob matching of a pattern (split into segments)
against a relative path; a `**` segment matches any run of directories. -/
def globPath : List String → List String → Bool
  | [], s => s.isEmpty
  | p :: ps, s =>
    if p == "**" then s.tails.any (fun t => globPath ps t)
    else
      match s with
      | [] => false
      | seg :: s2 => globSeg p.data seg.data && globPath ps s2

/-- The pattern segments of a declared data-file pattern. -/
def patSegs (pat : String) : List String := splitOnChar '/' pat

/-- The declared name, from `setup.py`. -/
def packageName : String := "google-cloud-datastore-stubs"

/-- The declared version string, from `setup.py`. -/
def version : String := "2.21.0"

/-- The declared `python_requires` constraint, from `setup.py`. -/
def python_requires : String := ">=3.7"

/-- The declared classifiers, from `setup.py`. -/
def classifiers : List String :=
  ["Development Status :: 4 - Beta",
   "Intended Audience :: Developers",
   "License :: OSI Approved :: Apache Software License",
   "Programming Language :: Python :: 3",
   "Programming Language :: Python :: 3.7",
   "Programming Language :: Python :: 3.8",
   "Programming Language :: Python :: 3.9",
   "Programming Language :: Python :: 3.10",
   "Programming Language :: Python :: 3.11",
   "Typing :: Typed"]

/-- The declared `package_data` mapping, from `setup.py`. Keys are the
source's dotted package names split at dots into path segments
(`"google.cloud.datastore"` denotes the package at `google/cloud/datastore`;
`"google-cloud-datastore-stubs"` contains no dot and is a single segment). -/
def package_data : List (List String × List String) :=
  [(["google-cloud-datastore-stubs"], ["py.typed", "**/*.pyi"]),
   (["google", "cloud", "datastore"], ["py.typed", "*.pyi"])]

/-- The full metadata record produced by evaluating the descriptor. -/
structure SetupArgs where
  name : String
  version : String
  description : String
  long_description : String
  long_description_content_type : String
  author : String
  packages : List (List String)
  package_data : List (List String × List String)
  include_package_data : Bool
  zip_safe : Bool
  python_requires : String
  classifiers : List String
deriving DecidableEq

/-- The keyword arguments of the `setup(...)` call in `setup.py`, given the
long-description contents and the discovered package list. -/
def mkSetupArgs (ld : String) (pkgs : List (List String)) : SetupArgs :=
  { name := packageName
    version := version
    description := "Type stubs for google-cloud-datastore"
    long_description := ld
    long_description_content_type := "text/markdown"
    author := "Type Stubs Contributor"
    packages := pkgs
    package_data := package_data
    include_package_data := true
    zip_safe := false
    python_requires := python_requires
    classifiers := classifiers }

/-- The distributable artifact: the metadata record plus the bundled files. -/
structure Artifact where
  meta : SetupArgs
  files : List (List String × String)
deriving DecidableEq

/-- Parse a dotted numeric version from a list of characters. -/
def parseVersionChars (l : List Char) : Option (List Nat) :=
  let segs := splitChars '.' l
  if segs.all (fun t => !t.isEmpty && t.all Char.isDigit)
  then some (segs.map (fun t => t.foldl (fun n c => n * 10 + (c.toNat - 48)) 0))
  else none

/-- Modelled from the spec: the project's versioning scheme parses a version
string as dot-separated numeric components. -/
def parseVersion (s : String) : Option (List Nat) := parseVersionChars s.data

/-- Whether some component of a version is nonzero. -/
def versionPos : List Nat → Bool
  | [] => false
  | a :: as => decide (0 < a) || versionPos as

/-- Modelled from the spec: strict order on parsed versions, componentwise
lexicographic with missing trailing components read as zero. -/
def versionLt : List Nat → List Nat → Bool
  | [], bs => versionPos bs
  | _ :: _, [] => false
  | a :: as, b :: bs => decide (a < b) || (decide (a = b) && versionLt as bs)

/-- `a` is at least `b` in the versioning scheme. -/
def versionGe (a b : List Nat) : Bool := !versionLt a b

/-- Modelled from the spec: parse a minimum-version constraint of the form
`>=X.Y`; yields the minimum version. -/
def parseSpec (s : String) : Option (List Nat) :=
  match s.data with
  | '>' :: '=' :: rest => parseVersionChars rest
  | _ => none

/-- Modelled from the spec: whether a consuming runtime version satisfies a
minimum-version constraint (`none` when the constraint does not parse). -/
def checkRequires (s : String) (v : List Nat) : Option Bool :=
  (parseSpec s).map (fun m => versionGe v m)

/-- Modelled from the spec: metadata validation rejects a malformed version
string; all other declared fields are plain strings and cannot be
malformed. -/
def validateMeta (args : SetupArgs) : Except SetupError Unit :=
  match parseVersion args.version with
  | some _ => Except.ok ()
  | none => Except.error (SetupError.invalidVersion args.version)

/-- The files of the source tree matched by one declared pattern relative to
one package directory. -/
def matchesIn (fs : FS) (pkg : List String) (pat : String) :
    List (List String × String) :=
  fs.files.filter (fun f =>
    pkg.isPrefixOf f.1 && globPath (patSegs pat) (f.1.drop pkg.length))

/-- The data-file patterns declared for a package (empty when the package is
not a key of `package_data`). -/
def patternsFor (pkg : List String) : List String :=
  match package_data.lookup pkg with
  | some pats => pats
  | none => []

/-- Modelled from the spec: bundle the files matched by each declared
pattern of one discovered package; a pattern matching zero files is a
BuildError. -/
def bundlePats (fs : FS) (pkg : List String) :
    List String → Except SetupError (List (List String × String))
  | [] => Except.ok []
  | pat :: rest =>
    if (matchesIn fs pkg pat).isEmpty then
      Except.error (SetupError.buildError pkg pat)
    else
      match bundlePats fs pkg rest with
      | Except.ok l => Except.ok (matchesIn fs pkg pat ++ l)
      | Except.error e => Except.error e

/-- Modelled from the spec: bundle, for each discovered package in turn, the
files matched by its declared data-file patterns. -/
def bundleAll (fs : FS) :
    List (List String) → Except SetupError (List (List String × String))
  | [] => Except.ok []
  | pkg :: rest =>
    match bundlePats fs pkg (patternsFor pkg) with
    | Except.error e => Except.error e
    | Except.ok a =>
      match bundleAll fs rest with
      | Except.error e => Except.error e
      | Except.ok b => Except.ok (a ++ b)

/-- One run of the descriptor and build over a file-system state, returning
the trace of operations and the result.  Argument evaluation order follows
`setup.py`: the long-description read happens while the arguments of
`setup(...)` are evaluated, as does package discovery; `setup` itself then
validates the metadata and runs the bundle step. -/
def runBuildT (fs : FS) : List Event × Except SetupError Artifact :=
  match fs.readFile readmePath with
  | Except.error e => ([Event.fsAccess readmePath], Except.error e)
  | Except.ok ld =>
    match validateMeta (mkSetupArgs ld (find_packages fs)) with
    | Except.error e =>
      ([Event.fsAccess readmePath, Event.discoverPackages,
        Event.validateMetadata], Except.error e)
    | Except.ok _ =>
      match bundleAll fs (find_packages fs) with
      | Except.error e =>
        ([Event.fsAccess readmePath, Event.discoverPackages,
          Event.validateMetadata, Event.bundleFiles], Except.error e)
      | Except.ok out =>
        ([Event.fsAccess readmePath, Event.discoverPackages,
          Event.validateMetadata, Event.bundleFiles],
         Except.ok { meta := mkSetupArgs ld (find_packages fs), files := out })

/-- The result of one build run. -/
def runBuild (fs : FS) : Except SetupError Artifact := (runBuildT fs).2

/-- Modelled from the spec: installing the artifact makes every bundled file
retrievable from the installed location unchanged. -/
def installArtifact (a : Artifact) : List (List String × String) := a.files

/-- An empty source tree (in particular, `../README.md` is absent). -/
def fsEmpty : FS := ⟨[]⟩

/-- A complete, valid source tree: the long-description document, the
namespace chain `google/cloud/datastore` with init-markers, the typed-marker
file and one stub file. -/
def fsGood : FS :=
  ⟨[(["..", "README.md"], "# README"),
    (["google", "__init__.py"], ""),
    (["google", "cloud", "__init__.py"], ""),
    (["google", "cloud", "datastore", "__init__.py"], ""),
    (["google", "cloud", "datastore", "py.typed"], ""),
    (["google", "cloud", "datastore", "client.pyi"], "stub")]⟩

/-- The artifact the build produces from `fsGood`. -/
def artGood : Artifact :=
  { meta := mkSetupArgs "# README"
      [["google"], ["google", "cloud"], ["google", "cloud", "datastore"]]
    files := [(["google", "cloud", "datastore", "py.typed"], ""),
              (["google", "cloud", "datastore", "client.pyi"], "stub")] }

/-- Modelled from the spec: the discovery operation's declarative contract —
an importable namespace path (nonempty, every segment an identifier) whose
directory contains the init-marker, with no other filtering. -/
def discoveredSpec (fs : FS) (p : List String) : Prop :=
  p ≠ [] ∧ (∀ s ∈ p, isIdentSeg s = true) ∧
    ∃ c, (p ++ [initMarker], c) ∈ fs.files

/-- The full input state of a build invocation: the file-system state and
the process environment. The descriptor defines no environment-driven
behavior, so the environment is carried but never read. -/
structure BuildInput where
  fs : FS
  env : List (String × String)

/-- A build run over a full input state. -/
def runSetupIn (i : BuildInput) : List Event × Except SetupError Artifact :=
  runBuildT i.fs

/-! ### Helper lemmas -/

lemma getLast?_decomp {α : Type} {l : List α} {a : α}
    (h : l.getLast? = some a) : l.dropLast ++ [a] = l := by
  have hne : l ≠ [] := by rintro rfl; cases h
  rw [List.getLast?_eq_getLast l hne] at h
  injection h with h3
  rw [← h3]
  exact List.dropLast_append_getLast hne

lemma mem_find_packages (fs : FS) (p : List String) :
    p ∈ find_packages fs ↔
      p ≠ [] ∧ (∀ s ∈ p, isIdentSeg s = true) ∧
        ∃ c, (p ++ [initMarker], c) ∈ fs.files := by
  unfold find_packages
  rw [List.mem_dedup, List.mem_filterMap]
  constructor
  · rintro ⟨f, hf, hg⟩
    dsimp only at hg
    by_cases hc :
        (f.1.getLast? == some initMarker && !f.1.dropLast.isEmpty
          && f.1.dropLast.all isIdentSeg) = true
    · rw [if_pos hc] at hg
      injection hg with hg
      subst hg
      simp only [Bool.and_eq_true, beq_iff_eq, Bool.not_eq_true'] at hc
      obtain ⟨⟨h1, h2⟩, h3⟩ := hc
      refine ⟨List.isEmpty_eq_false.mp h2, List.all_eq_true.mp h3, f.2, ?_⟩
      rw [getLast?_decomp h1]
      exact hf
    · rw [if_neg hc] at hg; cases hg
  · rintro ⟨hne, hall, c, hc⟩
    refine ⟨(p ++ [initMarker], c), hc, ?_⟩
    dsimp only
    rw [if_pos]
    · rw [List.dropLast_concat]
    · rw [List.getLast?_concat, List.dropLast_concat]
      simp [List.isEmpty_eq_false.mpr hne, List.all_eq_true.mpr hall]

lemma isPrefixOf_exists : ∀ (p l : List String),
    p.isPrefixOf l = true ↔ ∃ t, p ++ t = l
  | [], l => by simp [List.isPrefixOf]
  | _ :: _, [] => by simp [List.isPrefixOf]
  | a :: as, b :: bs => by
    simp only [List.isPrefixOf, Bool.and_eq_true, beq_iff_eq]
    constructor
    · rintro ⟨rfl, h⟩
      obtain ⟨t, rfl⟩ := (isPrefixOf_exists as bs).1 h
      exact ⟨t, rfl⟩
    · rintro ⟨t, ht⟩
      injection ht with h1 h2
      exact ⟨h1, (isPrefixOf_exists as bs).2 ⟨t, h2⟩⟩

lemma globSeg_lit : ∀ (l s : List Char), '*' ∉ l → globSeg l s = true → s = l := by
  intro l
  induction l with
  | nil =>
    intro s _ h
    rw [globSeg] at h
    exact List.isEmpty_iff.mp h
  | cons c ps ih =>
    intro s hstar h
    have hc : (c == '*') = false := by
      rw [beq_eq_false_iff_ne]
      intro he
      exact hstar (he ▸ List.mem_cons_self c ps)
    simp only [globSeg] at h
    rw [if_neg (show ¬ ((c == '*') = true) by simp [hc])] at h
    cases s with
    | nil => cases h
    | cons c2 s2 =>
      rw [Bool.and_eq_true, beq_iff_eq] at h
      obtain ⟨rfl, h2⟩ := h
      rw [ih s2 (fun hm => hstar (List.mem_cons_of_mem _ hm)) h2]

lemma globPath_one_lit (p : String) (s : List String)
    (hp : (p == "**") = false) (hstar : '*' ∉ p.data)
    (h : globPath [p] s = true) : s = [p] := by
  simp only [globPath] at h
  rw [if_neg (show ¬ ((p == "**") = true) by simp [hp])] at h
  cases s with
  | nil => cases h
  | cons seg s2 =>
    rw [Bool.and_eq_true] at h
    obtain ⟨h1, h2⟩ := h
    rw [List.isEmpty_iff.mp (show s2.isEmpty = true from h2)]
    have hd := globSeg_lit p.data seg.data hstar h1
    rw [String.ext hd]

lemma bundlePats_ok (fs : FS) (pkg : List String) :
    ∀ (pats : List String) (l : List (List String × String)),
      bundlePats fs pkg pats = Except.ok l →
      ∀ pat ∈ pats, matchesIn fs pkg pat ≠ [] ∧
        ∀ f ∈ matchesIn fs pkg pat, f ∈ l := by
  intro pats
  induction pats with
  | nil => intro l _ pat hpat; cases hpat
  | cons q rest ih =>
    intro l h pat hpat
    rw [bundlePats] at h
    by_cases he : (matchesIn fs pkg q).isEmpty = true
    · rw [if_pos he] at h; cases h
    · rw [if_neg he] at h
      cases hb : bundlePats fs pkg rest with
      | error e => rw [hb] at h; cases h
      | ok l2 =>
        rw [hb] at h
        injection h with h
        subst h
        rcases List.mem_cons.mp hpat with rfl | hm
        · refine ⟨List.isEmpty_eq_false.mp (Bool.eq_false_iff.mpr he), ?_⟩
          intro f hf
          exact List.mem_append.mpr (Or.inl hf)
        · obtain ⟨h1, h2⟩ := ih l2 hb pat hm
          exact ⟨h1, fun f hf => List.mem_append.mpr (Or.inr (h2 f hf))⟩

lemma bundlePats_src (fs : FS) (pkg : List String) :
    ∀ (pats : List String) (l : List (List String × String)),
      bundlePats fs pkg pats = Except.ok l →
      ∀ f ∈ l, ∃ pat ∈ pats, f ∈ matchesIn fs pkg pat := by
  intro pats
  induction pats with
  | nil =>
    intro l h f hf
    rw [bundlePats] at h
    injection h with h
    subst h
    cases hf
  | cons q rest ih =>
    intro l h f hf
    rw [bundlePats] at h
    by_cases he : (matchesIn fs pkg q).isEmpty = true
    · rw [if_pos he] at h; cases h
    · rw [if_neg he] at h
      cases hb : bundlePats fs pkg rest with
      | error e => rw [hb] at h; cases h
      | ok l2 =>
        rw [hb] at h
        injection h with h
        subst h
        rcases List.mem_append.mp hf with hm | hm
        · exact ⟨q, List.mem_cons_self q rest, hm⟩
        · obtain ⟨pat, hp1, hp2⟩ := ih l2 hb f hm
          exact ⟨pat, List.mem_cons_of_mem q hp1, hp2⟩

lemma bundleAll_ok (fs : FS) :
    ∀ (pkgs : List (List String)) (l : List (List String × String)),
      bundleAll fs pkgs = Except.ok l →
      ∀ pkg ∈ pkgs, ∃ lp, bundlePats fs pkg (patternsFor pkg) = Except.ok lp ∧
        ∀ f ∈ lp, f ∈ l := by
  intro pkgs
  induction pkgs with
  | nil => intro l _ pkg hpkg; cases hpkg
  | cons q rest ih =>
    intro l h pkg hpkg
    rw [bundleAll] at h
    cases ha : bundlePats fs q (patternsFor q) with
    | error e => rw [ha] at h; cases h
    | ok a =>
      rw [ha] at h
      cases hb : bundleAll fs rest with
      | error e => rw [hb] at h; cases h
      | ok b =>
        rw [hb] at h
        injection h with h
        subst h
        rcases List.mem_cons.mp hpkg with rfl | hm
        · exact ⟨a, ha, fun f hf => List.mem_append.mpr (Or.inl hf)⟩
        · obtain ⟨lp, hl1, hl2⟩ := ih b hb pkg hm
          exact ⟨lp, hl1, fun f hf => List.mem_append.mpr (Or.inr (hl2 f hf))⟩

lemma bundleAll_src (fs : FS) :
    ∀ (pkgs : List (List String)) (l : List (List String × String)),
      bundleAll fs pkgs = Except.ok l →
      ∀ f ∈ l, ∃ pkg ∈ pkgs, ∃ pat ∈ patternsFor pkg,
        f ∈ matchesIn fs pkg pat := by
  intro pkgs
  induction pkgs with
  | nil =>
    intro l h f hf
    rw [bundleAll] at h
    injection h with h
    subst h
    cases hf
  | cons q rest ih =>
    intro l h f hf
    rw [bundleAll] at h
    cases ha : bundlePats fs q (patternsFor q) with
    | error e => rw [ha] at h; cases h
    | ok a =>
      rw [ha] at h
      cases hb : bundleAll fs rest with
      | error e => rw [hb] at h; cases h
      | ok b =>
        rw [hb] at h
        injection h with h
        subst h
        rcases List.mem_append.mp hf with hm | hm
        · obtain ⟨pat, hp1, hp2⟩ := bundlePats_src fs q (patternsFor q) a ha f hm
          exact ⟨q, List.mem_cons_self q rest, pat, hp1, hp2⟩
        · obtain ⟨pkg, h1, pat, h2, h3⟩ := ih b hb f hm
          exact ⟨pkg, List.mem_cons_of_mem q h1, pat, h2, h3⟩

lemma runBuild_ok_elim {fs : FS} {art : Artifact}
    (h : runBuild fs = Except.ok art) :
    bundleAll fs (find_packages fs) = Except.ok art.files := by
  unfold runBuild runBuildT at h
  cases hr : fs.readFile readmePath with
  | error e => rw [hr] at h; cases h
  | ok ld =>
    rw [hr] at h
    dsimp only at h
    have hv : validateMeta (mkSetupArgs ld (find_packages fs)) = Except.ok () := rfl
    rw [hv] at h
    dsimp only at h
    cases hb : bundleAll fs (find_packages fs) with
    | error e => rw [hb] at h; cases h
    | ok out =>
      rw [hb] at h
      injection h with h
      rw [← h]

lemma lookup_package_data (pkg : List String) (pats : List String)
    (h : package_data.lookup pkg = some pats) : ("py.typed" : String) ∈ pats := by
  simp only [package_data, List.lookup] at h
  split at h
  · injection h with h; subst h; decide
  · split at h
    · injection h with h; subst h; decide
    · cases h

lemma versionLt_nil_right : ∀ a : List Nat, versionLt a [] = false := by
  intro a
  cases a with
  | nil => rfl
  | cons x xs => rfl

lemma versionLt_irrefl : ∀ a : List Nat, versionLt a a = false := by
  intro a
  induction a with
  | nil => rfl
  | cons x xs ih => simp [versionLt, ih]

lemma versionLt_asymm : ∀ a b : List Nat,
    versionLt a b = true → versionLt b a = false := by
  intro a
  induction a with
  | nil => intro b _; exact versionLt_nil_right b
  | cons x xs ih =>
    intro b h
    cases b with
    | nil => rw [versionLt_nil_right] at h; cases h
    | cons y ys =>
      rw [Bool.eq_false_iff]
      intro hba
      simp only [versionLt, Bool.or_eq_true, Bool.and_eq_true,
        decide_eq_true_eq] at h hba
      rcases h with h1 | ⟨he1, hr1⟩ <;> rcases hba with h2 | ⟨he2, hr2⟩
      · omega
      · omega
      · omega
      · rw [ih ys hr1] at hr2; cases hr2

/-! ### Claims -/

/-- C1: if the long-description document `../README.md` is absent from the
file-system state, evaluating the descriptor fails with the
FileNotFoundError-equivalent, the build fails, and no artifact (not even a
partial one) is produced. -/
theorem c1_missing_readme_aborts (fs : FS)
    (h : fs.files.lookup readmePath = none) :
    runBuild fs = Except.error (SetupError.fileNotFound readmePath) ∧
      ∀ a : Artifact, runBuild fs ≠ Except.ok a := by
  have hr : fs.readFile readmePath
      = Except.error (SetupError.fileNotFound readmePath) := by
    unfold FS.readFile
    rw [h]
  have h2 : runBuild fs = Except.error (SetupError.fileNotFound readmePath) := by
    unfold runBuild runBuildT
    rw [hr]
  exact ⟨h2, fun a hc => by rw [h2] at hc; cases hc⟩

theorem c1_witness :
    fsEmpty.files.lookup readmePath = none ∧
      runBuild fsEmpty = Except.error (SetupError.fileNotFound readmePath) :=
  ⟨rfl, (c1_missing_readme_aborts fsEmpty rfl).1⟩

/-- C2, as stated, is false on the code: with the complete valid tree
`fsGood` the build succeeds, although the declared pattern `py.typed` under
the `package_data` key `google-cloud-datastore-stubs` matches zero files in
the source tree. -/
theorem c2_counterexample :
    ¬ (∀ (fs : FS) (art : Artifact), runBuild fs = Except.ok art →
        ∀ kv ∈ package_data, ∀ pat ∈ kv.2, matchesIn fs kv.1 pat ≠ []) := by
  intro hclaim
  exact hclaim fsGood artGood (by rfl)
    (["google-cloud-datastore-stubs"], ["py.typed", "**/*.pyi"])
    (by decide) "py.typed" (by decide) (by rfl)

/-- C2 amended: for every pattern declared for a DISCOVERED package, a
successful build implies the pattern matched at least one file (patterns
declared under a key that discovery never returns are never consulted). -/
theorem c2_discovered_patterns_match (fs : FS) (art : Artifact)
    (h : runBuild fs = Except.ok art) (pkg : List String)
    (hpkg : pkg ∈ find_packages fs) (pat : String)
    (hpat : pat ∈ patternsFor pkg) :
    matchesIn fs pkg pat ≠ [] := by
  have hb := runBuild_ok_elim h
  obtain ⟨lp, hlp, -⟩ := bundleAll_ok fs (find_packages fs) art.files hb pkg hpkg
  exact (bundlePats_ok fs pkg (patternsFor pkg) lp hlp pat hpat).1

theorem c2_witness :
    matchesIn fsGood ["google", "cloud", "datastore"] "py.typed" ≠ [] :=
  c2_discovered_patterns_match fsGood artGood (by rfl)
    ["google", "cloud", "datastore"] (by decide) "py.typed" (by decide)

/-- C3, as stated, is false on the code: the execution over the empty
file-system state performs a file-system access (the long-description read)
at trace position 0, with no metadata validation before it — validation
never precedes the first file-system access. -/
theorem c3_counterexample :
    ¬ (∀ (fs : FS) (i : Nat) (q : List String),
        (runBuildT fs).1.get? i = some (Event.fsAccess q) →
        ∃ j, j < i ∧ (runBuildT fs).1.get? j = some Event.validateMetadata) := by
  intro hclaim
  obtain ⟨j, hj, -⟩ := hclaim fsEmpty 0 readmePath (by rfl)
  exact Nat.not_lt_zero j hj

/-- C3 amended: in every execution of the descriptor the FIRST operation is
the file-system access that reads the long-description document; metadata
validation happens only after it (file access precedes validation, not the
other way around). -/
theorem c3_read_precedes_validation (fs : FS) :
    (runBuildT fs).1.head? = some (Event.fsAccess readmePath) := by
  unfold runBuildT
  cases fs.readFile readmePath with
  | error e => rfl
  | ok ld =>
    dsimp only
    cases validateMeta (mkSetupArgs ld (find_packages fs)) with
    | error e => rfl
    | ok u =>
      dsimp only
      cases bundleAll fs (find_packages fs) with
      | error e => rfl
      | ok out => rfl

/-- C4: round-trip — every file of the source tree selected by a declared
`package_data` pattern of a discovered package ends up in the built
artifact, and installing the artifact makes it retrievable with
byte-identical contents (the same (path, contents) pair as in the source
tree). -/
theorem c4_roundtrip (fs : FS) (art : Artifact)
    (h : runBuild fs = Except.ok art) (pkg : List String)
    (hpkg : pkg ∈ find_packages fs) (pat : String)
    (hpat : pat ∈ patternsFor pkg) (f : List String × String)
    (hf : f ∈ matchesIn fs pkg pat) :
    f ∈ installArtifact art ∧ f ∈ fs.files := by
  have hb := runBuild_ok_elim h
  obtain ⟨lp, hlp, hsub⟩ := bundleAll_ok fs (find_packages fs) art.files hb pkg hpkg
  refine ⟨hsub f ((bundlePats_ok fs pkg (patternsFor pkg) lp hlp pat hpat).2 f hf), ?_⟩
  unfold matchesIn at hf
  exact (List.mem_filter.mp hf).1

theorem c4_witness :
    (["google", "cloud", "datastore", "py.typed"], "") ∈ installArtifact artGood ∧
      (["google", "cloud", "datastore", "py.typed"], "") ∈ fsGood.files :=
  c4_roundtrip fsGood artGood (by rfl) ["google", "cloud", "datastore"]
    (by decide) "py.typed" (by decide)
    (["google", "cloud", "datastore", "py.typed"], "") (by decide)

/-- C5: every key of the `package_data` mapping declares the typed-marker
pattern `py.typed`, and a successful build places the typed-marker file in
every declared namespace directory that discovery returned. -/
theorem c5_typed_marker :
    (∀ kv ∈ package_data, ("py.typed" : String) ∈ kv.2) ∧
      ∀ (fs : FS) (art : Artifact), runBuild fs = Except.ok art →
        ∀ pkg ∈ find_packages fs, (package_data.lookup pkg).isSome = true →
          ∃ c, (pkg ++ ["py.typed"], c) ∈ art.files := by
  constructor
  · decide
  · intro fs art h pkg hpkg hsome
    cases hl : package_data.lookup pkg with
    | none => rw [hl] at hsome; cases hsome
    | some pats =>
      have hpat : ("py.typed" : String) ∈ pats := lookup_package_data pkg pats hl
      have hpf : patternsFor pkg = pats := by unfold patternsFor; rw [hl]
      have hb := runBuild_ok_elim h
      obtain ⟨lp, hlp, hsub⟩ :=
        bundleAll_ok fs (find_packages fs) art.files hb pkg hpkg
      have hprop := bundlePats_ok fs pkg (patternsFor pkg) lp hlp "py.typed"
        (by rw [hpf]; exact hpat)
      obtain ⟨f, hf⟩ := List.exists_mem_of_ne_nil _ hprop.1
      have hfa : f ∈ art.files := hsub f (hprop.2 f hf)
      unfold matchesIn at hf
      rw [List.mem_filter] at hf
      obtain ⟨hsrc, hcond⟩ := hf
      rw [Bool.and_eq_true] at hcond
      have hps : patSegs "py.typed" = ["py.typed"] := by decide
      rw [hps] at hcond
      have hrel : f.1.drop pkg.length = ["py.typed"] :=
        globPath_one_lit "py.typed" (f.1.drop pkg.length) (by decide)
          (by decide) hcond.2
      obtain ⟨t, hts⟩ := (isPrefixOf_exists pkg f.1).1 hcond.1
      have hteq : t = ["py.typed"] := by
        rw [← hrel, ← hts, List.drop_left]
      refine ⟨f.2, ?_⟩
      have hfp : f.1 = pkg ++ ["py.typed"] := by rw [← hts, hteq]
      rw [← hfp]
      exact hfa

theorem c5_witness :
    ∃ c, (["google", "cloud", "datastore", "py.typed"], c) ∈ artGood.files :=
  c5_typed_marker.2 fsGood artGood (by rfl) ["google", "cloud", "datastore"]
    (by decide) (by rfl)

/-- C6: the discovery operation returns exactly the importable namespace
paths whose directory contains the init-marker, with no other filtering. -/
theorem c6_discovery (fs : FS) (p : List String) :
    p ∈ find_packages fs ↔ discoveredSpec fs p :=
  mem_find_packages fs p

/-- C7: the declared version string parses under the versioning scheme, and
any hypothesised previously published version that is strictly below it is
distinct from it and not above it (versions are unique per published
release and the order is strict). -/
theorem c7_version :
    parseVersion version = some [2, 21, 0] ∧
      ∀ prev : List Nat, versionLt prev [2, 21, 0] = true →
        prev ≠ [2, 21, 0] ∧ versionLt [2, 21, 0] prev = false := by
  refine ⟨by decide, fun prev h => ⟨?_, versionLt_asymm prev [2, 21, 0] h⟩⟩
  intro he
  rw [he, versionLt_irrefl] at h
  cases h

theorem c7_witness :
    versionLt [2, 20, 1] [2, 21, 0] = true ∧
      [2, 20, 1] ≠ [2, 21, 0] ∧ versionLt [2, 21, 0] [2, 20, 1] = false :=
  ⟨by decide, c7_version.2 [2, 20, 1] (by decide)⟩

/-- C8: the `python_requires` field is a pure minimum-version constraint —
a runtime version satisfies it exactly when it is at least 3.7; versions
above those listed in the classifiers (for example 3.12) are accepted, and
no 3.12 classifier is declared. -/
theorem c8_python_requires :
    (∀ v : List Nat, checkRequires python_requires v = some (versionGe v [3, 7])) ∧
      checkRequires python_requires [3, 12] = some true ∧
      "Programming Language :: Python :: 3.12" ∉ classifiers := by
  have hp : parseSpec python_requires = some [3, 7] := by decide
  refine ⟨?_, by decide, by decide⟩
  intro v
  unfold checkRequires
  rw [hp]
  rfl

/-- C9: the `package_data` key `google-cloud-datastore-stubs` contains
hyphens, so it is never equal to a package name returned by discovery (whose
segments are importable identifiers), and no file of any successfully built
artifact lies under that key's directory — the patterns declared under that
key select no files in any build. -/
theorem c9_dead_key (fs : FS) :
    (∀ p ∈ find_packages fs, p ≠ ["google-cloud-datastore-stubs"]) ∧
      ∀ (art : Artifact) (f : List String × String),
        runBuild fs = Except.ok art → f ∈ art.files →
          ¬ ∃ t, ["google-cloud-datastore-stubs"] ++ t = f.1 := by
  constructor
  · intro p hp he
    obtain ⟨-, hall, -⟩ := (mem_find_packages fs p).1 hp
    have hid := hall "google-cloud-datastore-stubs"
      (by rw [he]; exact List.mem_cons_self _ _)
    exact absurd hid (by decide)
  · rintro art f h hf ⟨t, ht⟩
    have hb := runBuild_ok_elim h
    obtain ⟨pkg, hpkg, pat, hpat, hm⟩ :=
      bundleAll_src fs (find_packages fs) art.files hb f hf
    obtain ⟨hne, hall, -⟩ := (mem_find_packages fs pkg).1 hpkg
    unfold matchesIn at hm
    rw [List.mem_filter] at hm
    rw [Bool.and_eq_true] at hm
    obtain ⟨t2, ht2⟩ := (isPrefixOf_exists pkg f.1).1 hm.2.1
    cases pkg with
    | nil => exact hne rfl
    | cons q qs =>
      rw [← ht] at ht2
      injection ht2 with h1 h2
      have hid := hall q (List.mem_cons_self q qs)
      rw [h1] at hid
      exact absurd hid (by decide)

theorem c9_witness :
    ¬ ∃ t, ["google-cloud-datastore-stubs"] ++ t
        = ["google", "cloud", "datastore", "py.typed"] :=
  (c9_dead_key fsGood).2 artGood (["google", "cloud", "datastore", "py.typed"], "")
    (by rfl) (by decide)

/-- C10: descriptor evaluation is deterministic — two build invocations over
identical file-system states produce identical traces and identical results
(metadata record, discovered package set, bundled files), whatever the rest
of the input state (the environment) contains. -/
theorem c10_deterministic (i1 i2 : BuildInput) (h : i1.fs = i2.fs) :
    runSetupIn i1 = runSetupIn i2 := by
  unfold runSetupIn
  rw [h]

theorem c10_witness :
    runSetupIn ⟨fsGood, []⟩ = runSetupIn ⟨fsGood, [("LANG", "C")]⟩ :=
  c10_deterministic ⟨fsGood, []⟩ ⟨fsGood, [("LANG", "C")]⟩ rfl

end DatastoreStubs
